import Mathlib

/-!
Verification of the DESasterNep discrete-event recovery simulation
(`desaster/financial.py`, `desaster/technical.py`, `desaster/structures.py`,
`desaster/entities.py`).

The recovery-program generator processes are shallowly embedded as pure Lean
functions over an explicit state.  Numbers (money, material levels, durations)
are modelled as exact rationals.  A SimPy `Resource` becomes a `Pool` (capacity
plus current holder count), a SimPy `Container` becomes a `Container` (capacity
plus current level).  A generator's suspension points (`yield request`,
`yield timeout`, `yield container.get`) are numbered per process; an external
interruption is modelled by an optional pair `(site, cause)` meaning: if the
process suspends at yield site `site`, the `simpy.Interrupt` is delivered
there with the given cause and control jumps to the process's `except
Interrupt` handler.  A yield whose event can never be granted (pool at
capacity, container level too low) blocks the process forever in the
single-process semantics; this surfaces as a `blocked…` outcome.
-/

namespace DESasterNep

/-- A SimPy capacity: either `float('inf')` (the default) or a finite number. -/
inductive Cap
  | inf
  | fin (c : ℚ)
deriving DecidableEq

/-- A SimPy `Resource`: capacity together with the current number of users
holding a granted (and unreleased) request. -/
structure Pool where
  cap : Cap
  holders : ℕ
deriving DecidableEq

/-- A pending request is granted exactly when the number of current users is
below capacity (`len(self.users) < self.capacity` in SimPy). -/
def Pool.canGrant (p : Pool) : Bool :=
  match p.cap with
  | Cap.inf => true
  | Cap.fin c => decide ((p.holders : ℚ) < c)

/-- The effect of a granted `request()`. -/
def Pool.acquire (p : Pool) : Pool :=
  { p with holders := p.holders + 1 }

/-- The effect of `release(request)`. -/
def Pool.release (p : Pool) : Pool :=
  { p with holders := p.holders - 1 }

/-- `n` back-to-back requests by one process can all be granted. -/
def Pool.canGrantRun : Pool → ℕ → Bool
  | _, 0 => true
  | p, n + 1 => p.canGrant && p.acquire.canGrantRun n

/-- A SimPy `Container`: capacity together with the current level. -/
structure Container where
  cap : Cap
  level : ℚ
deriving DecidableEq

/-- `container.get(x)` is granted exactly when the level covers the amount. -/
def Container.canGet (c : Container) (x : ℚ) : Bool :=
  decide (x ≤ c.level)

/-- The effect of a granted `get(x)`. -/
def Container.get (c : Container) (x : ℚ) : Container :=
  { c with level := c.level - x }

/-- The construction stages of `RepairProgram` (`self.level` strings
`'Up to Plinth Level'`, `'Superstructure'`, `'Roofing'`). -/
inductive Stage
  | plinth
  | superstructure
  | roofing
deriving DecidableEq

/-- The material containers held by `RepairProgram` (the eight construction
materials plus the unskilled-labour container, which the source also treats
as a material). -/
inductive Mat
  | stone
  | brick
  | timber
  | rebar
  | cement
  | cgi
  | sand
  | aggregate
  | unskilled
deriving DecidableEq

/-- The story strings appended by the embedded processes (`entity.story`).
Each constructor stands for one `entity.story.append(...)` site; only the
data that distinguishes the message is kept.  `insufficientMaterial m` keeps
the material NAMED IN THE MESSAGE TEXT (which, for the timber branch of
`RepairProgram.process`, is `stone`). -/
inductive Story
  | naSubmitted (t : ℚ)
  | naReceived (amount : ℚ) (t : ℚ)
  | naPartial (requested : ℚ) (paid : ℚ) (t : ℚ)
  | naNothing
  | naGaveUp (cause : ℚ)
  | noInsurance
  | claimSubmitted (t : ℚ)
  | deductibleExceedsDamage
  | claimPaid (amount : ℚ) (t : ℚ)
  | insGaveUp (cause : ℚ)
  | loanSubmitted (t : ℚ)
  | loanReceived (amount : ℚ) (t : ℚ)
  | loanGaveUp (cause : ℚ)
  | insufficientMaterial (named : Mat)
  | moneyShort
  | houseRepaired (t : ℚ) (elapsed : ℚ)
  | repairGaveUp (cause : ℚ)
  | inspected (t : ℚ) (cost : ℚ)
  | assessed (t : ℚ)
  | permitted (t : ℚ)
deriving DecidableEq

/-- The `structures.Building` record, restricted to the fields the embedded
processes read or write.  The three stage valuations are scenario inputs
(computed from spreadsheet lookups in `setPlinthValue`/`setWallValue`/
`setRoofValue`, which are out-of-scope I/O). -/
structure Building where
  inspected : Bool
  permit : Bool
  assessment : Bool
  new_plinth : Bool
  new_walls : Bool
  new_roof : Bool
  plinth_time : ℚ
  walls_time : ℚ
  roof_time : ℚ
  finished_plinth : ℚ
  finished_walls : ℚ
  finished_roof : ℚ
  first_inst : Bool
  second_inst : Bool
  third_inst : Bool
  first_inst_time : ℚ
  second_inst_time : ℚ
  third_inst_time : ℚ
  plinth_value : ℚ
  wall_value : ℚ
  roof_value : ℚ
  damage_value : ℚ
  value : ℚ
deriving DecidableEq

/-- `Building.__init__` (structures.py lines 46-67): the inspection/permit/
assessment flags, the three stage-complete flags, the three installment flags
and all tracking timestamps start out false / zero.  The five valuation
fields are the scenario inputs computed by the (out-of-scope) spreadsheet
lookups. -/
def Building.construct (pv wv rv dv v : ℚ) : Building :=
  { inspected := false
    permit := false
    assessment := false
    new_plinth := false
    new_walls := false
    new_roof := false
    plinth_time := 0
    walls_time := 0
    roof_time := 0
    finished_plinth := 0
    finished_walls := 0
    finished_roof := 0
    first_inst := false
    second_inst := false
    third_inst := false
    first_inst_time := 0
    second_inst_time := 0
    third_inst_time := 0
    plinth_value := pv
    wall_value := wv
    roof_value := rv
    damage_value := dv
    value := v }

/-- The `entities.Owner` record, restricted to the fields the embedded
processes read or write.  Timestamps initialised to `None` in
`Owner.__init__` are modelled as `Option ℚ`. -/
structure Entity where
  write_story : Bool
  story : List Story
  insurance : ℚ
  savings : ℚ
  income : ℚ
  claim_put : Option ℚ
  claim_get : Option ℚ
  claim_payout : ℚ
  assistance_put : Option ℚ
  assistance_get : Option ℚ
  assistance_request : ℚ
  assistance_payout : ℚ
  money_to_rebuild : ℚ
  rebuild_put : Option ℚ
  rebuild_get : Option ℚ
  loan_put : Option ℚ
  loan_get : Option ℚ
  loan_amount : ℚ
  inspection_put : Option ℚ
  inspection_get : Option ℚ
  assessment_put : Option ℚ
  assessment_get : Option ℚ
  permit_put : Option ℚ
  permit_get : Option ℚ
  debt : ℚ
  property : Building
deriving DecidableEq

/-- Append a story entry exactly when `entity.write_story` is true
(every `entity.story.append` in the source is guarded this way). -/
def Entity.tell (e : Entity) (msg : Story) : Entity :=
  if e.write_story then { e with story := e.story ++ [msg] } else e

/-- The interruption schedule: `some (k, cause)` delivers `Interrupt(cause)`
if and when the process suspends at its yield site number `k`. -/
def intrCause : Option (ℕ × ℚ) → ℕ → Option ℚ
  | some (k, c), j => if k = j then some c else none
  | none, _ => none

/-! ## IndividualAssistance (financial.py lines 110-239)

Yield sites of `IndividualAssistance.process`:
site 0 = `yield request` (staff), site 1 = `yield self.env.timeout(...)`,
site 2 = `yield self.budget.get(entity.assistance_request)` (full-payment
branch), site 3 = `yield self.budget.get(self.budget.level)` (partial
branch). -/

/-- The state an `IndividualAssistance` run reads and writes: the program's
staff pool and budget container, the entity (with its structure), and the
simulation clock. -/
structure IAState where
  staff : Pool
  budget : Container
  ent : Entity
  now : ℚ
deriving DecidableEq

/-- Outcome of one `IndividualAssistance.process` run. -/
inductive IAOutcome
  | alreadyFunded
  | paidFull
  | paidPartial
  | paidNothing
  | gaveUp (cause : ℚ)
  | blockedAt (site : ℕ)
deriving DecidableEq

/-- The grant tier chosen at settlement (financial.py lines 155-160):
50,000 before the plinth is built, 150,000 before the walls, 100,000
afterwards. -/
def iaTier (b : Building) : ℚ :=
  if b.new_plinth = false then 50000
  else if b.new_walls = false then 150000
  else 100000

/-- The installment flag-and-timestamp commit of the full-payment branch
(financial.py lines 172-180), keyed on the same stage tests as the tier. -/
def iaMarkInstallment (e : Entity) (t : ℚ) : Entity :=
  if e.property.new_plinth = false then
    { e with property := { e.property with first_inst := true, first_inst_time := t } }
  else if e.property.new_walls = false then
    { e with property := { e.property with second_inst := true, second_inst_time := t } }
  else
    { e with property := { e.property with third_inst := true, third_inst_time := t } }

/-- The `except Interrupt` handler of `IndividualAssistance.process`
(financial.py lines 228-234): it only appends the give-up story entry;
no slot is released. -/
def iaHandler (e : Entity) (cause : ℚ) : Entity :=
  e.tell (Story.naGaveUp cause)

/-- `IndividualAssistance.process` (financial.py lines 110-239), embedded
over `IAState` with sampled duration `dur` and interruption schedule
`intr`. -/
def IndividualAssistance.process (dur : ℚ) (intr : Option (ℕ × ℚ))
    (s : IAState) : IAOutcome × IAState :=
  if s.ent.money_to_rebuild ≥ s.ent.property.damage_value then
    (IAOutcome.alreadyFunded, s)
  else
    let e0 := { s.ent with assistance_put := some s.now }
    let e0 := e0.tell (Story.naSubmitted s.now)
    -- site 0: `request = self.staff.request(); yield request`
    match intrCause intr 0 with
    | some cause => (IAOutcome.gaveUp cause, { s with ent := iaHandler e0 cause })
    | none =>
      if s.staff.canGrant = false then
        (IAOutcome.blockedAt 0, { s with ent := e0 })
      else
        let staff1 := s.staff.acquire
        -- site 1: `yield self.env.timeout(self.duration())`
        match intrCause intr 1 with
        | some cause =>
          (IAOutcome.gaveUp cause, { s with staff := staff1, ent := iaHandler e0 cause })
        | none =>
          let now1 := s.now + dur
          let staff2 := staff1.release
          let e1 := { e0 with assistance_get := some now1 }
          let e2 := { e1 with assistance_request := iaTier e1.property }
          if e2.assistance_request ≤ s.budget.level ∧ e2.assistance_request ≠ (0 : ℚ) then
            -- full payment
            let e3 := { e2 with assistance_payout := e2.assistance_request,
                                money_to_rebuild :=
                                  e2.money_to_rebuild + e2.assistance_request }
            let e4 := iaMarkInstallment e3 now1
            -- site 2: `yield self.budget.get(entity.assistance_request)`
            match intrCause intr 2 with
            | some cause =>
              (IAOutcome.gaveUp cause,
                { staff := staff2, budget := s.budget, ent := iaHandler e4 cause, now := now1 })
            | none =>
              let b1 := s.budget.get e4.assistance_request
              let e5 := e4.tell (Story.naReceived e4.assistance_payout now1)
              (IAOutcome.paidFull, { staff := staff2, budget := b1, ent := e5, now := now1 })
          else if 0 < s.budget.level then
            -- partial payment: drain the remaining budget
            let e3 := { e2 with assistance_payout := s.budget.level,
                                money_to_rebuild := e2.money_to_rebuild + s.budget.level }
            -- site 3: `yield self.budget.get(self.budget.level)`
            match intrCause intr 3 with
            | some cause =>
              (IAOutcome.gaveUp cause,
                { staff := staff2, budget := s.budget, ent := iaHandler e3 cause, now := now1 })
            | none =>
              let b1 := s.budget.get s.budget.level
              let e4 := e3.tell (Story.naPartial e3.assistance_request e3.assistance_payout now1)
              (IAOutcome.paidPartial, { staff := staff2, budget := b1, ent := e4, now := now1 })
          else
            let e3 := { e2 with assistance_payout := 0 }
            let e4 := e3.tell Story.naNothing
            (IAOutcome.paidNothing, { staff := staff2, budget := s.budget, ent := e4, now := now1 })

/-! ## OwnersInsurance (financial.py lines 269-361)

Yield sites: site 0 = `yield request` (adjuster staff), site 1 =
`yield self.env.timeout(...)`. -/

/-- The state an `OwnersInsurance` run reads and writes (its budget container
is never used by the process). -/
structure OIState where
  staff : Pool
  ent : Entity
  now : ℚ
deriving DecidableEq

/-- Outcome of one `OwnersInsurance.process` run. -/
inductive OIOutcome
  | noInsurance
  | denied
  | paid
  | gaveUp (cause : ℚ)
  | blockedAt (site : ℕ)
deriving DecidableEq

/-- The `except Interrupt` handler of `OwnersInsurance.process`
(financial.py lines 351-356): story entry only, no slot released. -/
def oiHandler (e : Entity) (cause : ℚ) : Entity :=
  e.tell (Story.insGaveUp cause)

/-- `OwnersInsurance.process` (financial.py lines 269-361), embedded over
`OIState`; `deductibleRate` is the program's `self.deductible`. -/
def OwnersInsurance.process (deductibleRate : ℚ) (dur : ℚ)
    (intr : Option (ℕ × ℚ)) (s : OIState) : OIOutcome × OIState :=
  if s.ent.insurance ≤ 0 then
    (OIOutcome.noInsurance, { s with ent := s.ent.tell Story.noInsurance })
  else
    let e0 := { s.ent with claim_put := some s.now }
    let e0 := e0.tell (Story.claimSubmitted s.now)
    -- deductible_amount = entity.property.value * entity.insurance * self.deductible
    let deductible_amount := e0.property.value * e0.insurance * deductibleRate
    if e0.property.damage_value < deductible_amount then
      let e1 := e0.tell Story.deductibleExceedsDamage
      let e2 := { e1 with claim_get := some s.now }
      (OIOutcome.denied, { s with ent := e2 })
    else
      -- site 0: `request = self.staff.request(); yield request`
      match intrCause intr 0 with
      | some cause => (OIOutcome.gaveUp cause, { s with ent := oiHandler e0 cause })
      | none =>
        if s.staff.canGrant = false then
          (OIOutcome.blockedAt 0, { s with ent := e0 })
        else
          let staff1 := s.staff.acquire
          -- site 1: `yield self.env.timeout(self.duration())`
          match intrCause intr 1 with
          | some cause =>
            (OIOutcome.gaveUp cause, { s with staff := staff1, ent := oiHandler e0 cause })
          | none =>
            let now1 := s.now + dur
            let e1 := { e0 with claim_payout :=
                          e0.property.damage_value - deductible_amount }
            let e2 := { e1 with money_to_rebuild := e1.money_to_rebuild + e1.claim_payout }
            let e3 := { e2 with claim_get := some now1 }
            let staff2 := staff1.release
            let e4 := e3.tell (Story.claimPaid e3.claim_payout now1)
            (OIOutcome.paid, { staff := staff2, ent := e4, now := now1 })

/-! ## HomeLoan (financial.py lines 392-483)

Yield sites: site 0 = `yield request` (loan processor), site 1 =
`yield self.env.timeout(...)`. -/

/-- The state a `HomeLoan` run reads and writes. -/
structure HLState where
  staff : Pool
  ent : Entity
  now : ℚ
deriving DecidableEq

/-- Outcome of one `HomeLoan.process` run. -/
inductive HLOutcome
  | alreadyFunded
  | settled
  | gaveUp (cause : ℚ)
  | blockedAt (site : ℕ)
deriving DecidableEq

/-- The stage cost targeted by `HomeLoan.process` (financial.py lines
408-413): valuation of the first incomplete stage. -/
def hlRebuildCost (b : Building) : ℚ :=
  if b.new_plinth = false then b.plinth_value
  else if b.new_walls = false then b.wall_value
  else b.roof_value

/-- The `except Interrupt` handler of `HomeLoan.process` (financial.py lines
473-478): story entry only, no slot released. -/
def hlHandler (e : Entity) (cause : ℚ) : Entity :=
  e.tell (Story.loanGaveUp cause)

/-- `HomeLoan.process` (financial.py lines 392-483), embedded over `HLState`;
`max_loan` is the program's `self.max_loan`. -/
def HomeLoan.process (max_loan : ℚ) (dur : ℚ) (intr : Option (ℕ × ℚ))
    (s : HLState) : HLOutcome × HLState :=
  let rebuild_cost := hlRebuildCost s.ent.property
  if s.ent.money_to_rebuild ≥ rebuild_cost then
    (HLOutcome.alreadyFunded, s)
  else
    let e0 := { s.ent with loan_put := some s.now }
    let e0 := e0.tell (Story.loanSubmitted s.now)
    -- site 0: `request = self.staff.request(); yield request`
    match intrCause intr 0 with
    | some cause => (HLOutcome.gaveUp cause, { s with ent := hlHandler e0 cause })
    | none =>
      if s.staff.canGrant = false then
        (HLOutcome.blockedAt 0, { s with ent := e0 })
      else
        let staff1 := s.staff.acquire
        -- site 1: `yield self.env.timeout(self.duration())`
        match intrCause intr 1 with
        | some cause =>
          (HLOutcome.gaveUp cause, { s with staff := staff1, ent := hlHandler e0 cause })
        | none =>
          let now1 := s.now + dur
          let staff2 := staff1.release
          let e1 := { e0 with loan_get := some now1 }
          -- savings are only assumed spent before plinth construction
          let saved := if e1.property.new_plinth = false then e1.savings else 0
          let amt := min max_loan
            (rebuild_cost - saved - e1.claim_payout - e1.assistance_payout)
          let e2 := { e1 with loan_amount := amt }
          if e2.loan_amount > (0 : ℚ) then
            let e3 := { e2 with money_to_rebuild := e2.money_to_rebuild + e2.loan_amount,
                                debt := e2.debt + e2.loan_amount }
            let e4 := e3.tell (Story.loanReceived e3.loan_amount now1)
            (HLOutcome.settled, { staff := staff2, ent := e4, now := now1 })
          else
            (HLOutcome.settled, { staff := staff2, ent := e2, now := now1 })

/-! ## RepairProgram (technical.py lines 363-624)

The required quantities (`..._needed`, technical.py lines 398-408) come from
spreadsheet lookups with reclamation factors applied; they are scenario
inputs here (`MatNeeded`).  Yield sites of `RepairProgram.process`:
sites 0-3 = the four sequential `yield skilled_request…`, sites 4-11 = the
guarded `yield self.<material>.get(...)` for stone, brick, timber, rebar,
cement, cgi, sand, aggregate, site 12 = `yield self.unskilled.get(...)`,
site 13 = `yield self.env.timeout(rebuild_time)`. -/

/-- The `..._needed` quantities for the target stage (including the skilled
effort units, from which the rebuild time is derived, and the unskilled
requirement). -/
structure MatNeeded where
  stone : ℚ
  brick : ℚ
  timber : ℚ
  rebar : ℚ
  cement : ℚ
  cgi : ℚ
  sand : ℚ
  aggregate : ℚ
  skilled : ℚ
  unskilled : ℚ
deriving DecidableEq

/-- The state a `RepairProgram` run reads and writes: the eight material
containers, the unskilled-labour container, the skilled-labour pool, the
entity and the clock. -/
structure RepairState where
  stone : Container
  brick : Container
  timber : Container
  rebar : Container
  cement : Container
  cgi : Container
  sand : Container
  aggregate : Container
  unskilled : Container
  skilled : Pool
  ent : Entity
  now : ℚ
deriving DecidableEq

/-- Outcome of one `RepairProgram.process` run.  `shortMaterial m` is the
synchronous abort when material `m`'s requirement exceeds its level. -/
inductive RepairOutcome
  | shortMaterial (m : Mat)
  | insufficientFunds
  | completed
  | gaveUp (cause : ℚ)
  | blockedPool (site : ℕ)
  | blockedMat (m : Mat)
deriving DecidableEq

/-- Result of a `RepairProgram` run: outcome, final state, and counts of the
`self.skilled.request()` grants and `self.skilled.release(...)` calls that
executed. -/
structure RepairResult where
  outcome : RepairOutcome
  state : RepairState
  acquired : ℕ
  released : ℕ
deriving DecidableEq

/-- The stage cost looked up by `RepairProgram.process` (technical.py lines
507-512). -/
def repairCost (stage : Stage) (b : Building) : ℚ :=
  match stage with
  | Stage.plinth => b.plinth_value
  | Stage.superstructure => b.wall_value
  | Stage.roofing => b.roof_value

/-- The `except Interrupt` handler of `RepairProgram.process` (technical.py
lines 613-618): story entry only; no slot is released and nothing is put
back into any container. -/
def repairHandler (e : Entity) (cause : ℚ) : Entity :=
  e.tell (Story.repairGaveUp cause)

/-- The synchronous material precondition checks (technical.py lines
418-504), in source order; returns the first short material, if any.  The
unskilled requirement is NOT checked. -/
def repairShortMaterial (need : MatNeeded) (s : RepairState) : Option Mat :=
  if need.stone > s.stone.level then some Mat.stone
  else if need.brick > s.brick.level then some Mat.brick
  else if need.timber > s.timber.level then some Mat.timber
  else if need.rebar > s.rebar.level then some Mat.rebar
  else if need.cement > s.cement.level then some Mat.cement
  else if need.cgi > s.cgi.level then some Mat.cgi
  else if need.sand > s.sand.level then some Mat.sand
  else if need.aggregate > s.aggregate.level then some Mat.aggregate
  else none

/-- The material NAMED in the story text of each shortage branch.  The
timber branch's message (technical.py line 445) says "insufficient stone";
every other branch names its own material. -/
def shortStoryName : Mat → Mat
  | Mat.timber => Mat.stone
  | m => m

/-- The stage-completion commit (technical.py lines 595-609): flip the
stage-complete flag, record elapsed time and completion timestamp, and debit
the stage's valuation from `money_to_rebuild`. -/
def repairCommit (stage : Stage) (e : Entity) (put get : ℚ) : Entity :=
  match stage with
  | Stage.plinth =>
    let b := { e.property with new_plinth := true, plinth_time := get - put, finished_plinth := get }
    { e with property := b, money_to_rebuild := e.money_to_rebuild - e.property.plinth_value }
  | Stage.superstructure =>
    let b := { e.property with new_walls := true, walls_time := get - put, finished_walls := get }
    { e with property := b, money_to_rebuild := e.money_to_rebuild - e.property.wall_value }
  | Stage.roofing =>
    let b := { e.property with new_roof := true, roof_time := get - put, finished_roof := get }
    { e with property := b, money_to_rebuild := e.money_to_rebuild - e.property.roof_value }

/-- One guarded material withdrawal (`if needed > 0: yield c.get(needed)`)
performed in the crew-holding phase.  `k` is the yield-site number, `m` the
container's identity, `hold` the continuation on the withdrawn (or skipped)
container. -/
def repairGetStep (intr : Option (ℕ × ℚ)) (k : ℕ) (m : Mat) (needed : ℚ)
    (c : Container) (st : RepairState) (acq : ℕ)
    (hold : Container → RepairResult) : RepairResult :=
  if needed > (0 : ℚ) then
    match intrCause intr k with
    | some cause =>
      { outcome := RepairOutcome.gaveUp cause,
        state := { st with ent := repairHandler st.ent cause },
        acquired := acq, released := 0 }
    | none =>
      if c.canGet needed = false then
        { outcome := RepairOutcome.blockedMat m, state := st,
          acquired := acq, released := 0 }
      else
        hold (c.get needed)
  else
    hold c

/-- One of the four sequential `skilled_request` acquisitions (technical.py
lines 537-544).  `k` is the yield-site number. -/
def repairReqStep (intr : Option (ℕ × ℚ)) (k : ℕ) (st : RepairState)
    (acq : ℕ) (hold : Pool → RepairResult) : RepairResult :=
  match intrCause intr k with
  | some cause =>
    { outcome := RepairOutcome.gaveUp cause,
      state := { st with ent := repairHandler st.ent cause },
      acquired := acq, released := 0 }
  | none =>
    if st.skilled.canGrant = false then
      { outcome := RepairOutcome.blockedPool k, state := st,
        acquired := acq, released := 0 }
    else
      hold st.skilled.acquire

/-- `RepairProgram.process` (technical.py lines 363-624), embedded over
`RepairState` for target stage `stage` with required quantities `need` and
interruption schedule `intr`.  (The process samples no duration: the rebuild
time is `need.skilled / 4`.) -/
def RepairProgram.process (stage : Stage) (need : MatNeeded)
    (intr : Option (ℕ × ℚ)) (s : RepairState) : RepairResult :=
  match repairShortMaterial need s with
  | some m =>
    { outcome := RepairOutcome.shortMaterial m,
      state := { s with ent := s.ent.tell (Story.insufficientMaterial (shortStoryName m)) },
      acquired := 0, released := 0 }
  | none =>
    let cost := repairCost stage s.ent.property
    if s.ent.money_to_rebuild < cost then
      { outcome := RepairOutcome.insufficientFunds,
        state := { s with ent := s.ent.tell Story.moneyShort },
        acquired := 0, released := 0 }
    else
      -- entity.rebuild_put = self.env.now
      let e0 := { s.ent with rebuild_put := some s.now }
      let s0 := { s with ent := e0 }
      let rebuild_time := need.skilled / 4
      -- sites 0-3: four sequential skilled-labour acquisitions
      repairReqStep intr 0 s0 0 fun p1 =>
      repairReqStep intr 1 { s0 with skilled := p1 } 1 fun p2 =>
      repairReqStep intr 2 { s0 with skilled := p2 } 2 fun p3 =>
      repairReqStep intr 3 { s0 with skilled := p3 } 3 fun p4 =>
      let s1 := { s0 with skilled := p4 }
      -- sites 4-12: guarded withdrawals from the material containers
      repairGetStep intr 4 Mat.stone need.stone s1.stone s1 4 fun cStone =>
      let s2 := { s1 with stone := cStone }
      repairGetStep intr 5 Mat.brick need.brick s2.brick s2 4 fun cBrick =>
      let s3 := { s2 with brick := cBrick }
      repairGetStep intr 6 Mat.timber need.timber s3.timber s3 4 fun cTimber =>
      let s4 := { s3 with timber := cTimber }
      repairGetStep intr 7 Mat.rebar need.rebar s4.rebar s4 4 fun cRebar =>
      let s5 := { s4 with rebar := cRebar }
      repairGetStep intr 8 Mat.cement need.cement s5.cement s5 4 fun cCement =>
      let s6 := { s5 with cement := cCement }
      repairGetStep intr 9 Mat.cgi need.cgi s6.cgi s6 4 fun cCgi =>
      let s7 := { s6 with cgi := cCgi }
      repairGetStep intr 10 Mat.sand need.sand s7.sand s7 4 fun cSand =>
      let s8 := { s7 with sand := cSand }
      repairGetStep intr 11 Mat.aggregate need.aggregate s8.aggregate s8 4 fun cAggregate =>
      let s9 := { s8 with aggregate := cAggregate }
      repairGetStep intr 12 Mat.unskilled need.unskilled s9.unskilled s9 4 fun cUnskilled =>
      let s10 := { s9 with unskilled := cUnskilled }
      -- site 13: `yield self.env.timeout(rebuild_time)`
      match intrCause intr 13 with
      | some cause =>
        { outcome := RepairOutcome.gaveUp cause,
          state := { s10 with ent := repairHandler s10.ent cause },
          acquired := 4, released := 0 }
      | none =>
        let now1 := s10.now + rebuild_time
        -- release the four contractors
        let p' := s10.skilled.release.release.release.release
        let e1 := { s10.ent with rebuild_get := some now1 }
        let e2 := e1.tell (Story.houseRepaired now1 (now1 - s.now))
        let e3 := repairCommit stage e2 s.now now1
        { outcome := RepairOutcome.completed,
          state := { s10 with skilled := p', ent := e3, now := now1 },
          acquired := 4, released := 4 }

/-! ## InspectionProgram (technical.py lines 116-171)

`process(structure, entity=None, ...)` takes the structure separately and an
OPTIONAL entity.  It has no `try/except Interrupt` (not cancellable), so no
interruption schedule is modelled.  After releasing the inspector it reads
`entity.write_story` unconditionally; with `entity = None` this attribute
access raises `AttributeError`.  If all three stage flags are already true,
`rebuild_cost` is never assigned and the story line raises `NameError`. -/

/-- The state an `InspectionProgram` run reads and writes. -/
structure InspState where
  staff : Pool
  struct : Building
  ent : Option Entity
  now : ℚ
deriving DecidableEq

/-- Outcome of one `InspectionProgram.process` run.  `attrError` is the
uncaught Python `AttributeError` from `entity.write_story` when
`entity = None`; `nameError` the uncaught `NameError` when `rebuild_cost`
was never assigned. -/
inductive InspOutcome
  | done
  | blockedAt (site : ℕ)
  | attrError
  | nameError
deriving DecidableEq

/-- The current-stage rebuild cost computed for reporting (technical.py
lines 157-162); `none` when every stage flag is already true (in which case
the Python local is never bound). -/
def inspRebuildCost (b : Building) : Option ℚ :=
  if b.new_plinth = false then some b.plinth_value
  else if b.new_walls = false then some b.wall_value
  else if b.new_roof = false then some b.roof_value
  else none

/-- `InspectionProgram.process` (technical.py lines 116-171), embedded over
`InspState`. -/
def InspectionProgram.process (dur : ℚ) (s : InspState) : InspOutcome × InspState :=
  let s0 :=
    match s.ent with
    | some e => { s with ent := some { e with inspection_put := some s.now } }
    | none => s
  -- `staff_request = self.staff.request(); yield staff_request`
  if s0.staff.canGrant = false then
    (InspOutcome.blockedAt 0, s0)
  else
    let staff1 := s0.staff.acquire
    -- `yield self.env.timeout(self.duration())`
    let now1 := s0.now + dur
    let b1 := { s0.struct with inspected := true }
    let staff2 := staff1.release
    let s1 :=
      match s0.ent with
      | some e =>
        { s0 with staff := staff2, struct := b1, now := now1,
                  ent := some { e with inspection_get := some now1 } }
      | none => { s0 with staff := staff2, struct := b1, now := now1 }
    match s1.ent with
    | none =>
      -- `if entity.write_story:` with entity = None raises AttributeError
      (InspOutcome.attrError, s1)
    | some e =>
      if e.write_story then
        match inspRebuildCost b1 with
        | none => (InspOutcome.nameError, s1)
        | some rc =>
          (InspOutcome.done, { s1 with ent := some (e.tell (Story.inspected now1 rc)) })
      else
        (InspOutcome.done, s1)

/-! ## EngineeringAssessment (technical.py lines 199-245) and PermitProgram
(technical.py lines 272-317); neither has a `try/except Interrupt`. -/

/-- The state an `EngineeringAssessment` or `PermitProgram` run reads and
writes. -/
structure TechState where
  staff : Pool
  struct : Building
  ent : Entity
  now : ℚ
deriving DecidableEq

/-- Outcome of an `EngineeringAssessment` or `PermitProgram` run. -/
inductive TechOutcome
  | done
  | blockedAt (site : ℕ)
deriving DecidableEq

/-- `EngineeringAssessment.process` (technical.py lines 199-245). -/
def EngineeringAssessment.process (dur : ℚ) (s : TechState) : TechOutcome × TechState :=
  let e0 := { s.ent with assessment_put := some s.now }
  if s.staff.canGrant = false then
    (TechOutcome.blockedAt 0, { s with ent := e0 })
  else
    let staff1 := s.staff.acquire
    let now1 := s.now + dur
    let staff2 := staff1.release
    let b1 := { s.struct with assessment := true }
    let e1 := { e0 with assessment_get := some now1 }
    let e2 := e1.tell (Story.assessed now1)
    (TechOutcome.done, { staff := staff2, struct := b1, ent := e2, now := now1 })

/-- `PermitProgram.process` (technical.py lines 272-317). -/
def PermitProgram.process (dur : ℚ) (s : TechState) : TechOutcome × TechState :=
  let e0 := { s.ent with permit_put := some s.now }
  if s.staff.canGrant = false then
    (TechOutcome.blockedAt 0, { s with ent := e0 })
  else
    let staff1 := s.staff.acquire
    let now1 := s.now + dur
    let staff2 := staff1.release
    let b1 := { s.struct with permit := true }
    let e1 := { e0 with permit_get := some now1 }
    let e2 := e1.tell (Story.permitted now1)
    (TechOutcome.done, { staff := staff2, struct := b1, ent := e2, now := now1 })

/-! ## Program construction (financial.py lines 20-39, technical.py lines
35-50)

Neither `FinancialRecoveryProgram.__init__` nor
`TechnicalRecoveryProgram.__init__` validates its parameters itself; the
only construction-time failures come from the SimPy constructors they call.
Modelled from SimPy 3 (the library the source imports):
`Resource(env, capacity)` raises `ValueError` when `capacity <= 0`;
`Container(env, capacity, init)` raises `ValueError` when `capacity <= 0`,
when `init < 0`, or when `init > capacity`. -/

/-- A Python `ValueError` surfacing during `__init__`. -/
inductive SimErr
  | valueError
deriving DecidableEq

/-- `simpy.Resource(env, capacity)`. -/
def simpyResource (capacity : Cap) : Except SimErr Pool :=
  match capacity with
  | Cap.inf => Except.ok { cap := Cap.inf, holders := 0 }
  | Cap.fin c =>
    if c ≤ 0 then Except.error SimErr.valueError
    else Except.ok { cap := Cap.fin c, holders := 0 }

/-- `simpy.Container(env, capacity, init)`. -/
def simpyContainer (capacity : Cap) (initLevel : ℚ) : Except SimErr Container :=
  match capacity with
  | Cap.fin c =>
    if c ≤ 0 then Except.error SimErr.valueError
    else if initLevel < 0 then Except.error SimErr.valueError
    else if initLevel > c then Except.error SimErr.valueError
    else Except.ok { cap := Cap.fin c, level := initLevel }
  | Cap.inf =>
    if initLevel < 0 then Except.error SimErr.valueError
    else Except.ok { cap := Cap.inf, level := initLevel }

/-- The resources held by a `FinancialRecoveryProgram`. -/
structure FinancialRecoveryProgram where
  staff : Pool
  budget : Container
deriving DecidableEq

/-- `FinancialRecoveryProgram.__init__(env, duration_prob_dist, staff,
budget)` (financial.py lines 20-39): builds
`Resource(env, capacity=staff)` and `Container(env, init=budget)` (container
capacity defaulted to `float('inf')`), with no validation of its own. -/
def FinancialRecoveryProgram.construct (staff : Cap) (budget : ℚ) :
    Except SimErr FinancialRecoveryProgram := do
  let st ← simpyResource staff
  let bu ← simpyContainer Cap.inf budget
  Except.ok { staff := st, budget := bu }

/-- The resources held by a `TechnicalRecoveryProgram`. -/
structure TechnicalRecoveryProgram where
  staff : Pool
deriving DecidableEq

/-- `TechnicalRecoveryProgram.__init__(env, duration_prob_dist, staff)`
(technical.py lines 35-50): builds `Resource(env, capacity=staff)`, with no
validation of its own. -/
def TechnicalRecoveryProgram.construct (staff : Cap) :
    Except SimErr TechnicalRecoveryProgram := do
  let st ← simpyResource staff
  Except.ok { staff := st }

/-! ## Derived predicates used by the specification statements -/

/-- A repair outcome that means "suspended on a withdrawal from one of the
eight CHECKED material containers" (the unskilled-labour container is not
one of them). -/
def RepairOutcome.blocksCheckedContainer : RepairOutcome → Bool
  | RepairOutcome.blockedMat Mat.unskilled => false
  | RepairOutcome.blockedMat _ => true
  | _ => false

/-- A repair outcome that can only arise after the synchronous material
checks all passed. -/
def RepairOutcome.pastChecks : RepairOutcome → Bool
  | RepairOutcome.shortMaterial _ => false
  | RepairOutcome.blockedMat Mat.unskilled => true
  | RepairOutcome.blockedMat _ => false
  | _ => true

/-- A material-shortage abort is synchronous and effect-free: whenever the
outcome is `shortMaterial`, no skilled slot was acquired or released, no time
passed, and the pool, every container, the money and the structure are those
of the initial state. -/
def shortAbortImmediate (s : RepairState) (r : RepairResult) : Bool :=
  match r.outcome with
  | RepairOutcome.shortMaterial _ =>
    decide (r.acquired = 0) && decide (r.released = 0) &&
    decide (r.state.now = s.now) && decide (r.state.skilled = s.skilled) &&
    decide (r.state.stone = s.stone) && decide (r.state.brick = s.brick) &&
    decide (r.state.timber = s.timber) && decide (r.state.rebar = s.rebar) &&
    decide (r.state.cement = s.cement) && decide (r.state.cgi = s.cgi) &&
    decide (r.state.sand = s.sand) && decide (r.state.aggregate = s.aggregate) &&
    decide (r.state.unskilled = s.unskilled) &&
    decide (r.state.ent.money_to_rebuild = s.ent.money_to_rebuild) &&
    decide (r.state.ent.property = s.ent.property)
  | _ => true

/-- Stage-complete flags never drop from true back to false. -/
def flagsLe (b b' : Building) : Prop :=
  b.new_plinth ≤ b'.new_plinth ∧ b.new_walls ≤ b'.new_walls ∧ b.new_roof ≤ b'.new_roof

/-- The installment flag and timestamp matching the structure's stage at
settlement (claim C5's "matching installment flag and timestamp"). -/
def installmentMarked (b b' : Building) (t : ℚ) : Prop :=
  if b.new_plinth = false then b'.first_inst = true ∧ b'.first_inst_time = t
  else if b.new_walls = false then b'.second_inst = true ∧ b'.second_inst_time = t
  else b'.third_inst = true ∧ b'.third_inst_time = t

/-- The target stage's completion record: flag set, completion timestamp
`t`, elapsed duration `dt`. -/
def stageDone (stage : Stage) (b : Building) (t dt : ℚ) : Prop :=
  match stage with
  | Stage.plinth => b.new_plinth = true ∧ b.finished_plinth = t ∧ b.plinth_time = dt
  | Stage.superstructure => b.new_walls = true ∧ b.finished_walls = t ∧ b.walls_time = dt
  | Stage.roofing => b.new_roof = true ∧ b.finished_roof = t ∧ b.roof_time = dt

/-! ## Concrete sample states (for failing-input evaluations and witnesses) -/

/-- A sample structure: plinth 40,000, walls 60,000, roof 30,000, total
damage 130,000, nothing built yet. -/
def sampleBuilding : Building := Building.construct 40000 60000 30000 130000 130000

/-- A sample owner entity bound to `sampleBuilding`, with story tracking on
and 1,000 of rebuild money. -/
def sampleEntity : Entity :=
  { write_story := true, story := [], insurance := 0, savings := 0, income := 0,
    claim_put := none, claim_get := none, claim_payout := 0,
    assistance_put := none, assistance_get := none, assistance_request := 0,
    assistance_payout := 0, money_to_rebuild := 1000,
    rebuild_put := none, rebuild_get := none,
    loan_put := none, loan_get := none, loan_amount := 0,
    inspection_put := none, inspection_get := none,
    assessment_put := none, assessment_get := none,
    permit_put := none, permit_get := none, debt := 0,
    property := sampleBuilding }

/-- A sample repair state: ample checked materials, plenty of money, a
skilled pool of capacity 10 with no holders; the unskilled container level
is a parameter. -/
def sampleRepairState (unskilledLevel : ℚ) : RepairState :=
  { stone := { cap := Cap.inf, level := 100 },
    brick := { cap := Cap.inf, level := 100 },
    timber := { cap := Cap.inf, level := 100 },
    rebar := { cap := Cap.inf, level := 100 },
    cement := { cap := Cap.inf, level := 100 },
    cgi := { cap := Cap.inf, level := 100 },
    sand := { cap := Cap.inf, level := 100 },
    aggregate := { cap := Cap.inf, level := 100 },
    unskilled := { cap := Cap.inf, level := unskilledLevel },
    skilled := { cap := Cap.fin 10, holders := 0 },
    ent := { sampleEntity with money_to_rebuild := 500000 },
    now := 2 }

/-- A sample material requirement: a little of everything, 20 units of
skilled effort, 3 units of unskilled labour. -/
def sampleNeed : MatNeeded :=
  { stone := 4, brick := 6, timber := 5, rebar := 2, cement := 3, cgi := 1,
    sand := 7, aggregate := 8, skilled := 20, unskilled := 3 }

/-- A sample `IndividualAssistance` state: five free staff, a 200,000
budget, entity short of money, clock at day 3. -/
def sampleIAState : IAState :=
  { staff := { cap := Cap.fin 5, holders := 0 },
    budget := { cap := Cap.inf, level := 200000 },
    ent := sampleEntity, now := 3 }

/-- A sample `InspectionProgram` state with NO bound entity. -/
def sampleInspStateNone : InspState :=
  { staff := { cap := Cap.fin 2, holders := 0 },
    struct := sampleBuilding, ent := none, now := 5 }

/-- A sample `HomeLoan` state whose computed loan amount is negative:
savings 40,000 plus claim payout 20,000 already exceed the 40,000 plinth
cost, though `money_to_rebuild` (1,000) is still below it. -/
def sampleHLState : HLState :=
  { staff := { cap := Cap.fin 3, holders := 0 },
    ent := { sampleEntity with savings := 40000, claim_payout := 20000 },
    now := 4 }

/-- A sample `OwnersInsurance` state: 50% coverage, clock at day 6. -/
def sampleOIState : OIState :=
  { staff := { cap := Cap.fin 4, holders := 0 },
    ent := { sampleEntity with insurance := 1/2 },
    now := 6 }

/-! ## Basic lemmas about the embedded primitives -/

theorem intrCause_none (k : ℕ) : intrCause none k = none := rfl

theorem Entity.tell_property (e : Entity) (m : Story) : (e.tell m).property = e.property := by
  unfold Entity.tell; split <;> rfl

theorem Entity.tell_money (e : Entity) (m : Story) :
    (e.tell m).money_to_rebuild = e.money_to_rebuild := by
  unfold Entity.tell; split <;> rfl

theorem Entity.tell_claim_payout (e : Entity) (m : Story) :
    (e.tell m).claim_payout = e.claim_payout := by
  unfold Entity.tell; split <;> rfl

theorem Entity.tell_assistance_payout (e : Entity) (m : Story) :
    (e.tell m).assistance_payout = e.assistance_payout := by
  unfold Entity.tell; split <;> rfl

theorem Entity.tell_assistance_request (e : Entity) (m : Story) :
    (e.tell m).assistance_request = e.assistance_request := by
  unfold Entity.tell; split <;> rfl

theorem Entity.tell_loan_amount (e : Entity) (m : Story) :
    (e.tell m).loan_amount = e.loan_amount := by
  unfold Entity.tell; split <;> rfl

theorem Entity.tell_debt (e : Entity) (m : Story) : (e.tell m).debt = e.debt := by
  unfold Entity.tell; split <;> rfl

theorem Entity.tell_savings (e : Entity) (m : Story) : (e.tell m).savings = e.savings := by
  unfold Entity.tell; split <;> rfl

theorem Entity.tell_insurance (e : Entity) (m : Story) : (e.tell m).insurance = e.insurance := by
  unfold Entity.tell; split <;> rfl

theorem Entity.tell_claim_get (e : Entity) (m : Story) : (e.tell m).claim_get = e.claim_get := by
  unfold Entity.tell; split <;> rfl

theorem iaTier_ne_zero (b : Building) : iaTier b ≠ 0 := by
  unfold iaTier
  split
  · norm_num
  · split <;> norm_num

theorem Container.level_get (c : Container) (x : ℚ) : (c.get x).level = c.level - x := rfl

theorem iaMarkInstallment_payout (e : Entity) (t : ℚ) :
    (iaMarkInstallment e t).assistance_payout = e.assistance_payout := by
  unfold iaMarkInstallment; split <;> try split
  all_goals rfl

theorem iaMarkInstallment_request (e : Entity) (t : ℚ) :
    (iaMarkInstallment e t).assistance_request = e.assistance_request := by
  unfold iaMarkInstallment; split <;> try split
  all_goals rfl

theorem iaMarkInstallment_money (e : Entity) (t : ℚ) :
    (iaMarkInstallment e t).money_to_rebuild = e.money_to_rebuild := by
  unfold iaMarkInstallment; split <;> try split
  all_goals rfl

theorem iaMarkInstallment_marks (e : Entity) (t : ℚ) (b : Building) (hb : e.property = b) :
    installmentMarked b (iaMarkInstallment e t).property t := by
  subst hb
  unfold installmentMarked iaMarkInstallment
  by_cases h1 : e.property.new_plinth = false
  · simp [h1]
  · by_cases h2 : e.property.new_walls = false <;> simp [h1, h2]

theorem shortMaterial_none (need : MatNeeded) (s : RepairState)
    (h : repairShortMaterial need s = none) :
    need.stone ≤ s.stone.level ∧ need.brick ≤ s.brick.level ∧ need.timber ≤ s.timber.level ∧
    need.rebar ≤ s.rebar.level ∧ need.cement ≤ s.cement.level ∧ need.cgi ≤ s.cgi.level ∧
    need.sand ≤ s.sand.level ∧ need.aggregate ≤ s.aggregate.level := by
  unfold repairShortMaterial at h
  split_ifs at h with h1 h2 h3 h4 h5 h6 h7 h8
  exact ⟨not_lt.mp h1, not_lt.mp h2, not_lt.mp h3, not_lt.mp h4, not_lt.mp h5,
    not_lt.mp h6, not_lt.mp h7, not_lt.mp h8⟩

theorem repairReqStep_elim (P : RepairResult → Prop) (intr : Option (ℕ × ℚ)) (k : ℕ)
    (st : RepairState) (acq : ℕ) (hold : Pool → RepairResult)
    (hgu : ∀ cause, P { outcome := RepairOutcome.gaveUp cause,
                        state := { st with ent := repairHandler st.ent cause },
                        acquired := acq, released := 0 })
    (hbl : P { outcome := RepairOutcome.blockedPool k, state := st,
               acquired := acq, released := 0 })
    (hh : ∀ p, P (hold p)) : P (repairReqStep intr k st acq hold) := by
  unfold repairReqStep
  rcases hi : intrCause intr k with _ | cause
  · simp only [hi]
    split
    · exact hbl
    · exact hh _
  · simp only [hi]
    exact hgu cause

theorem repairGetStep_elim (P : RepairResult → Prop) (intr : Option (ℕ × ℚ)) (k : ℕ)
    (m : Mat) (needed : ℚ) (c : Container) (st : RepairState) (acq : ℕ)
    (hold : Container → RepairResult)
    (hgu : ∀ cause, P { outcome := RepairOutcome.gaveUp cause,
                        state := { st with ent := repairHandler st.ent cause },
                        acquired := acq, released := 0 })
    (hbl : needed > 0 → c.canGet needed = false →
      P { outcome := RepairOutcome.blockedMat m, state := st,
          acquired := acq, released := 0 })
    (hh : ∀ c', P (hold c')) : P (repairGetStep intr k m needed c st acq hold) := by
  unfold repairGetStep
  by_cases hn : needed > (0 : ℚ)
  · rw [if_pos hn]
    rcases hi : intrCause intr k with _ | cause
    · simp only [hi]
      by_cases hcg : c.canGet needed = false
      · rw [if_pos hcg]
        exact hbl hn hcg
      · rw [if_neg hcg]
        exact hh _
    · simp only [hi]
      exact hgu cause
  · rw [if_neg hn]
    exact hh c

theorem pastChecks_blocksChecked (o : RepairOutcome) (h : o.pastChecks = true) :
    o.blocksCheckedContainer = false := by
  cases o with
  | blockedMat m =>
    cases m <;> simp_all [RepairOutcome.pastChecks, RepairOutcome.blocksCheckedContainer]
  | _ => rfl

theorem pastChecks_shortAbort (s : RepairState) (r : RepairResult)
    (h : r.outcome.pastChecks = true) : shortAbortImmediate s r = true := by
  rcases r with ⟨o, st, a, rel⟩
  cases o <;> simp_all [RepairOutcome.pastChecks, shortAbortImmediate]

theorem repairReqStep_none (k : ℕ) (st : RepairState) (acq : ℕ)
    (hold : Pool → RepairResult) (h : st.skilled.canGrant = true) :
    repairReqStep none k st acq hold = hold st.skilled.acquire := by
  unfold repairReqStep
  simp [intrCause, h]

theorem repairGetStep_none (k : ℕ) (m : Mat) (needed : ℚ) (c : Container)
    (st : RepairState) (acq : ℕ) (hold : Container → RepairResult)
    (h : needed > 0 → c.canGet needed = true) :
    repairGetStep none k m needed c st acq hold =
      hold (if needed > (0 : ℚ) then c.get needed else c) := by
  unfold repairGetStep
  by_cases hn : needed > (0 : ℚ)
  · rw [if_pos hn, if_pos hn]
    simp [intrCause, h hn]
  · rw [if_neg hn, if_neg hn]

theorem canGrantRun_four (p : Pool) (h : p.canGrantRun 4 = true) :
    p.canGrant = true ∧ p.acquire.canGrant = true ∧ p.acquire.acquire.canGrant = true ∧
    p.acquire.acquire.acquire.canGrant = true := by
  simp only [Pool.canGrantRun, Bool.and_eq_true] at h
  exact ⟨h.1, h.2.1, h.2.2.1, h.2.2.2.1⟩

theorem flagsLe_refl (b : Building) : flagsLe b b := ⟨le_refl _, le_refl _, le_refl _⟩

theorem flagsLe_of_eq (b b' : Building) (h : b' = b) : flagsLe b b' := by
  subst h; exact flagsLe_refl b'

theorem iaMono (dur : ℚ) (intr : Option (ℕ × ℚ)) (s : IAState) :
    flagsLe s.ent.property (IndividualAssistance.process dur intr s).2.ent.property := by
  unfold IndividualAssistance.process iaHandler iaMarkInstallment
  simp only [flagsLe]
  refine ⟨?_, ?_, ?_⟩ <;>
    (repeat' split) <;>
    simp [Entity.tell_property, le_refl]

theorem oiMono (dRate dur : ℚ) (intr : Option (ℕ × ℚ)) (s : OIState) :
    flagsLe s.ent.property (OwnersInsurance.process dRate dur intr s).2.ent.property := by
  unfold OwnersInsurance.process oiHandler
  simp only [flagsLe]
  refine ⟨?_, ?_, ?_⟩ <;>
    (repeat' split) <;>
    simp [Entity.tell_property, le_refl]

theorem hlMono (max_loan dur : ℚ) (intr : Option (ℕ × ℚ)) (s : HLState) :
    flagsLe s.ent.property (HomeLoan.process max_loan dur intr s).2.ent.property := by
  unfold HomeLoan.process hlHandler
  simp only [flagsLe]
  refine ⟨?_, ?_, ?_⟩ <;>
    (repeat' split) <;>
    simp [Entity.tell_property, le_refl]

theorem repairCommit_flagsLe (stage : Stage) (e : Entity) (put get : ℚ) (b : Building)
    (hb : e.property = b) : flagsLe b (repairCommit stage e put get).property := by
  subst hb
  cases stage <;> simp [repairCommit, flagsLe, le_refl, Bool.le_true]

theorem inspMono (dur : ℚ) (s : InspState) :
    flagsLe s.struct (InspectionProgram.process dur s).2.struct := by
  unfold InspectionProgram.process
  simp only [flagsLe]
  refine ⟨?_, ?_, ?_⟩ <;> (repeat' split) <;> simp [le_refl]

theorem eaMono (dur : ℚ) (s : TechState) :
    flagsLe s.struct (EngineeringAssessment.process dur s).2.struct := by
  unfold EngineeringAssessment.process
  simp only [flagsLe]
  refine ⟨?_, ?_, ?_⟩ <;> (repeat' split) <;> simp [le_refl]

theorem permitMono (dur : ℚ) (s : TechState) :
    flagsLe s.struct (PermitProgram.process dur s).2.struct := by
  unfold PermitProgram.process
  simp only [flagsLe]
  refine ⟨?_, ?_, ?_⟩ <;> (repeat' split) <;> simp [le_refl]

theorem repairMono (stage : Stage) (need : MatNeeded) (intr : Option (ℕ × ℚ))
    (s : RepairState) :
    flagsLe s.ent.property (RepairProgram.process stage need intr s).state.ent.property := by
  unfold RepairProgram.process
  cases hsm : repairShortMaterial need s with
  | some m =>
    simp only [hsm]
    exact flagsLe_of_eq _ _ (by simp [Entity.tell_property])
  | none =>
    simp only [hsm]
    split
    · exact flagsLe_of_eq _ _ (by simp [Entity.tell_property])
    · apply repairReqStep_elim (fun r => flagsLe s.ent.property r.state.ent.property)
      · intro cause
        exact flagsLe_of_eq _ _ (by simp [repairHandler, Entity.tell_property])
      · exact flagsLe_of_eq _ _ (by simp)
      · intro p1
        apply repairReqStep_elim (fun r => flagsLe s.ent.property r.state.ent.property)
        · intro cause
          exact flagsLe_of_eq _ _ (by simp [repairHandler, Entity.tell_property])
        · exact flagsLe_of_eq _ _ (by simp)
        · intro p2
          apply repairReqStep_elim (fun r => flagsLe s.ent.property r.state.ent.property)
          · intro cause
            exact flagsLe_of_eq _ _ (by simp [repairHandler, Entity.tell_property])
          · exact flagsLe_of_eq _ _ (by simp)
          · intro p3
            apply repairReqStep_elim (fun r => flagsLe s.ent.property r.state.ent.property)
            · intro cause
              exact flagsLe_of_eq _ _ (by simp [repairHandler, Entity.tell_property])
            · exact flagsLe_of_eq _ _ (by simp)
            · intro p4
              apply repairGetStep_elim (fun r => flagsLe s.ent.property r.state.ent.property)
              · intro cause
                exact flagsLe_of_eq _ _ (by simp [repairHandler, Entity.tell_property])
              · intro _ _
                exact flagsLe_of_eq _ _ (by simp)
              · intro cStone
                apply repairGetStep_elim (fun r => flagsLe s.ent.property r.state.ent.property)
                · intro cause
                  exact flagsLe_of_eq _ _ (by simp [repairHandler, Entity.tell_property])
                · intro _ _
                  exact flagsLe_of_eq _ _ (by simp)
                · intro cBrick
                  apply repairGetStep_elim (fun r => flagsLe s.ent.property r.state.ent.property)
                  · intro cause
                    exact flagsLe_of_eq _ _ (by simp [repairHandler, Entity.tell_property])
                  · intro _ _
                    exact flagsLe_of_eq _ _ (by simp)
                  · intro cTimber
                    apply repairGetStep_elim (fun r => flagsLe s.ent.property r.state.ent.property)
                    · intro cause
                      exact flagsLe_of_eq _ _ (by simp [repairHandler, Entity.tell_property])
                    · intro _ _
                      exact flagsLe_of_eq _ _ (by simp)
                    · intro cRebar
                      apply repairGetStep_elim (fun r => flagsLe s.ent.property r.state.ent.property)
                      · intro cause
                        exact flagsLe_of_eq _ _ (by simp [repairHandler, Entity.tell_property])
                      · intro _ _
                        exact flagsLe_of_eq _ _ (by simp)
                      · intro cCement
                        apply repairGetStep_elim (fun r => flagsLe s.ent.property r.state.ent.property)
                        · intro cause
                          exact flagsLe_of_eq _ _ (by simp [repairHandler, Entity.tell_property])
                        · intro _ _
                          exact flagsLe_of_eq _ _ (by simp)
                        · intro cCgi
                          apply repairGetStep_elim (fun r => flagsLe s.ent.property r.state.ent.property)
                          · intro cause
                            exact flagsLe_of_eq _ _ (by simp [repairHandler, Entity.tell_property])
                          · intro _ _
                            exact flagsLe_of_eq _ _ (by simp)
                          · intro cSand
                            apply repairGetStep_elim (fun r => flagsLe s.ent.property r.state.ent.property)
                            · intro cause
                              exact flagsLe_of_eq _ _ (by simp [repairHandler, Entity.tell_property])
                            · intro _ _
                              exact flagsLe_of_eq _ _ (by simp)
                            · intro cAggregate
                              apply repairGetStep_elim (fun r => flagsLe s.ent.property r.state.ent.property)
                              · intro cause
                                exact flagsLe_of_eq _ _ (by simp [repairHandler, Entity.tell_property])
                              · intro _ _
                                exact flagsLe_of_eq _ _ (by simp)
                              · intro cUnskilled
                                rcases hf : intrCause intr 13 with _ | cause
                                · simp only [hf]
                                  apply repairCommit_flagsLe
                                  simp [Entity.tell_property]
                                · simp only [hf]
                                  exact flagsLe_of_eq _ _
                                    (by simp [repairHandler, Entity.tell_property])

/-! ## Claim theorems -/

/-- C1. The claim says an interruption delivered to a suspended recovery
program process releases every already-acquired pool slot before recording
the give-up outcome, restoring the pool's holder count.  The code's
`except Interrupt` handlers only append the give-up story entry and never
call `release`.  Evaluated at a concrete failing input: an
`IndividualAssistance` process interrupted during its duration timeout
(yield site 1, cause 30) records the give-up but leaves the staff pool's
holder count at 1, not its pre-request value 0; a `RepairProgram` process
interrupted during its rebuild timeout (yield site 13, cause 9) records the
give-up but leaves all 4 skilled-labour slots held and releases none. -/
theorem C1_interrupt_leaks_acquired_slots :
    sampleIAState.staff.holders = 0 ∧
    (IndividualAssistance.process 10 (some (1, 30)) sampleIAState).1 = IAOutcome.gaveUp 30 ∧
    (IndividualAssistance.process 10 (some (1, 30)) sampleIAState).2.ent.story =
      [Story.naSubmitted 3, Story.naGaveUp 30] ∧
    (IndividualAssistance.process 10 (some (1, 30)) sampleIAState).2.staff.holders = 1 ∧
    (sampleRepairState 50).skilled.holders = 0 ∧
    (RepairProgram.process Stage.plinth sampleNeed (some (13, 9)) (sampleRepairState 50)).outcome =
      RepairOutcome.gaveUp 9 ∧
    (RepairProgram.process Stage.plinth sampleNeed (some (13, 9)) (sampleRepairState 50)).state.skilled.holders = 4 ∧
    (RepairProgram.process Stage.plinth sampleNeed (some (13, 9)) (sampleRepairState 50)).released = 0 := by
  decide

/-- C2 counterexample. The claim says no Repair process is ever suspended on
a container withdrawal, including the unskilled-labour container.  With
every checked material plentiful but the unskilled-labour container empty
(level 0 against a requirement of 3), the process passes all synchronous
checks, acquires the crew, and then suspends forever on
`yield self.unskilled.get(...)`. -/
theorem C2_repair_suspends_on_unskilled_container :
    (RepairProgram.process Stage.plinth sampleNeed none (sampleRepairState 0)).outcome =
      RepairOutcome.blockedMat Mat.unskilled := by
  decide

/-- C3. The claim says a material-shortage abort records WHICH material was
short.  The abort itself is synchronous and effect-free, but the timber
branch's story message (technical.py line 445) names stone: with timber
short (requirement 200 against level 100) and everything else ample, the
process aborts with outcome `shortMaterial timber`, consumes no slot,
mutates neither money nor the structure — and the story entry it records
names stone, not timber. -/
theorem C3_timber_shortage_recorded_as_stone :
    (RepairProgram.process Stage.plinth { sampleNeed with timber := 200 } none
        (sampleRepairState 50)).outcome = RepairOutcome.shortMaterial Mat.timber ∧
    (RepairProgram.process Stage.plinth { sampleNeed with timber := 200 } none
        (sampleRepairState 50)).state.ent.story = [Story.insufficientMaterial Mat.stone] ∧
    (RepairProgram.process Stage.plinth { sampleNeed with timber := 200 } none
        (sampleRepairState 50)).acquired = 0 ∧
    (RepairProgram.process Stage.plinth { sampleNeed with timber := 200 } none
        (sampleRepairState 50)).state.skilled.holders = 0 ∧
    (RepairProgram.process Stage.plinth { sampleNeed with timber := 200 } none
        (sampleRepairState 50)).state.ent.money_to_rebuild =
      (sampleRepairState 50).ent.money_to_rebuild ∧
    (RepairProgram.process Stage.plinth { sampleNeed with timber := 200 } none
        (sampleRepairState 50)).state.ent.property = (sampleRepairState 50).ent.property := by
  decide

/-- C9. The claim says `InspectionProgram.process` completes successfully
with no bound entity.  The code guards the timestamp recordings with
`if entity != None` but then reads `entity.write_story` unconditionally
(technical.py line 166), which raises `AttributeError` when `entity` is
`None` — after the inspector has been acquired and released and
`structure.inspected` set. -/
theorem C9_inspection_without_entity_raises :
    (InspectionProgram.process 3 sampleInspStateNone).1 = InspOutcome.attrError ∧
    (InspectionProgram.process 3 sampleInspStateNone).2.struct.inspected = true ∧
    (InspectionProgram.process 3 sampleInspStateNone).2.staff.holders = 0 ∧
    (InspectionProgram.process 3 sampleInspStateNone).2.ent = none := by
  decide

/-- C10 counterexample. The claim says a non-positive budget parameter makes
construction fail.  `FinancialRecoveryProgram.__init__` performs no
validation of its own, and `simpy.Container(env, init=0)` is legal: with
staff capacity 1 and budget 0 the constructor succeeds. -/
theorem C10_zero_budget_constructs :
    FinancialRecoveryProgram.construct (Cap.fin 1) 0 =
      Except.ok { staff := { cap := Cap.fin 1, holders := 0 },
                  budget := { cap := Cap.inf, level := 0 } } := by
  rfl

/-- C10 (amended). Construction of a recovery program fails at construction
time with a `ValueError` exactly as the underlying SimPy constructors
dictate: a non-positive staff capacity fails (financial and technical), and
a strictly negative budget fails; a zero budget is accepted. -/
theorem C10_construction_validation (c budget : ℚ) :
    (c ≤ 0 → FinancialRecoveryProgram.construct (Cap.fin c) budget =
      Except.error SimErr.valueError) ∧
    (budget < 0 → FinancialRecoveryProgram.construct (Cap.fin c) budget =
      Except.error SimErr.valueError) ∧
    (budget < 0 → FinancialRecoveryProgram.construct Cap.inf budget =
      Except.error SimErr.valueError) ∧
    (c ≤ 0 → TechnicalRecoveryProgram.construct (Cap.fin c) =
      Except.error SimErr.valueError) := by
  refine ⟨?_, ?_, ?_, ?_⟩
  · intro h
    simp only [FinancialRecoveryProgram.construct, simpyResource, if_pos h]
    rfl
  · intro h
    by_cases hc : c ≤ 0
    · simp only [FinancialRecoveryProgram.construct, simpyResource, if_pos hc]
      rfl
    · simp only [FinancialRecoveryProgram.construct, simpyResource, simpyContainer, if_neg hc,
        if_pos h]
      rfl
  · intro h
    simp only [FinancialRecoveryProgram.construct, simpyResource, simpyContainer, if_pos h]
    rfl
  · intro h
    simp only [TechnicalRecoveryProgram.construct, simpyResource, if_pos h]
    rfl

/-- C10 witness: staff capacity −1 and budget −3 each make construction
fail. -/
theorem C10_construction_validation_witness :
    ((-1 : ℚ) ≤ 0 ∧ FinancialRecoveryProgram.construct (Cap.fin (-1)) 5 =
      Except.error SimErr.valueError) ∧
    ((-3 : ℚ) < 0 ∧ FinancialRecoveryProgram.construct (Cap.fin 2) (-3) =
      Except.error SimErr.valueError) ∧
    TechnicalRecoveryProgram.construct (Cap.fin 0) = Except.error SimErr.valueError :=
  ⟨⟨by norm_num, (C10_construction_validation (-1) 5).1 (by norm_num)⟩,
   ⟨by norm_num, (C10_construction_validation 2 (-3)).2.1 (by norm_num)⟩,
   (C10_construction_validation 0 7).2.2.2 (by norm_num)⟩

/-- C4 counterexample. The claim's preconditions (every checked material
requirement within its container level, money at least the stage cost) hold
at this input — shown explicitly below — and 4 free skilled slots exist,
yet because the unskilled-labour requirement (3) exceeds that container's
level (1), the process suspends on `yield self.unskilled.get(...)`: it never
waits out the rebuild time, never releases the crew, never debits the money
and never sets the stage flag. -/
theorem C4_unskilled_shortage_stalls_repair :
    (sampleNeed.stone ≤ (sampleRepairState 1).stone.level ∧
     sampleNeed.brick ≤ (sampleRepairState 1).brick.level ∧
     sampleNeed.timber ≤ (sampleRepairState 1).timber.level ∧
     sampleNeed.rebar ≤ (sampleRepairState 1).rebar.level ∧
     sampleNeed.cement ≤ (sampleRepairState 1).cement.level ∧
     sampleNeed.cgi ≤ (sampleRepairState 1).cgi.level ∧
     sampleNeed.sand ≤ (sampleRepairState 1).sand.level ∧
     sampleNeed.aggregate ≤ (sampleRepairState 1).aggregate.level ∧
     repairCost Stage.plinth (sampleRepairState 1).ent.property ≤
       (sampleRepairState 1).ent.money_to_rebuild ∧
     (sampleRepairState 1).skilled.canGrantRun 4 = true) ∧
    (RepairProgram.process Stage.plinth sampleNeed none (sampleRepairState 1)).outcome =
      RepairOutcome.blockedMat Mat.unskilled ∧
    (RepairProgram.process Stage.plinth sampleNeed none (sampleRepairState 1)).released = 0 ∧
    (RepairProgram.process Stage.plinth sampleNeed none (sampleRepairState 1)).state.ent.property.new_plinth = false ∧
    (RepairProgram.process Stage.plinth sampleNeed none (sampleRepairState 1)).state.ent.money_to_rebuild =
      (sampleRepairState 1).ent.money_to_rebuild ∧
    (RepairProgram.process Stage.plinth sampleNeed none (sampleRepairState 1)).state.now =
      (sampleRepairState 1).now := by
  decide

/-- C5. For every `IndividualAssistance` run that reaches settlement (the
entity is short of rebuild money and a staff slot is free; no interruption),
with computed request `r = iaTier` and budget level `L`: if `L ≥ r` the
entity is paid exactly `r`, the container is decremented by exactly `r`, and
the matching installment flag and timestamp are set; else if `L > 0` the
entity is paid exactly `L` and the container drains to 0; else the payout is
0; and in every case the payout is added to `money_to_rebuild`. -/
theorem C5_assistance_settlement (dur : ℚ) (s : IAState)
    (hmoney : s.ent.money_to_rebuild < s.ent.property.damage_value)
    (hstaff : s.staff.canGrant = true) :
    (iaTier s.ent.property ≤ s.budget.level →
      (IndividualAssistance.process dur none s).1 = IAOutcome.paidFull ∧
      (IndividualAssistance.process dur none s).2.ent.assistance_payout =
        iaTier s.ent.property ∧
      (IndividualAssistance.process dur none s).2.budget.level =
        s.budget.level - iaTier s.ent.property ∧
      (IndividualAssistance.process dur none s).2.ent.money_to_rebuild =
        s.ent.money_to_rebuild + iaTier s.ent.property ∧
      installmentMarked s.ent.property (IndividualAssistance.process dur none s).2.ent.property
        (s.now + dur)) ∧
    (¬ iaTier s.ent.property ≤ s.budget.level → 0 < s.budget.level →
      (IndividualAssistance.process dur none s).1 = IAOutcome.paidPartial ∧
      (IndividualAssistance.process dur none s).2.ent.assistance_payout = s.budget.level ∧
      (IndividualAssistance.process dur none s).2.budget.level = 0 ∧
      (IndividualAssistance.process dur none s).2.ent.money_to_rebuild =
        s.ent.money_to_rebuild + s.budget.level) ∧
    (¬ iaTier s.ent.property ≤ s.budget.level → ¬ 0 < s.budget.level →
      (IndividualAssistance.process dur none s).1 = IAOutcome.paidNothing ∧
      (IndividualAssistance.process dur none s).2.ent.assistance_payout = 0 ∧
      (IndividualAssistance.process dur none s).2.budget.level = s.budget.level ∧
      (IndividualAssistance.process dur none s).2.ent.money_to_rebuild =
        s.ent.money_to_rebuild) := by
  unfold IndividualAssistance.process
  simp only [intrCause, if_neg (not_le.mpr hmoney), hstaff, Entity.tell_property,
    Bool.true_eq_false, if_false, if_neg]
  refine ⟨?_, ?_, ?_⟩
  · intro hr
    rw [if_pos ⟨hr, iaTier_ne_zero _⟩]
    refine ⟨rfl, ?_, ?_, ?_, ?_⟩
    · simp [Entity.tell_assistance_payout, iaMarkInstallment_payout]
    · simp [Container.level_get, iaMarkInstallment_request]
    · simp [Entity.tell_money, iaMarkInstallment_money]
    · simp only [Entity.tell_property]
      apply iaMarkInstallment_marks
      rfl
  · intro hr hl
    rw [if_neg (fun h => hr h.1), if_pos hl]
    refine ⟨rfl, ?_, ?_, ?_⟩
    · simp [Entity.tell_assistance_payout]
    · simp [Container.level_get]
    · simp [Entity.tell_money]
  · intro hr hl
    rw [if_neg (fun h => hr h.1), if_neg hl]
    refine ⟨rfl, ?_, ?_, ?_⟩
    · simp [Entity.tell_assistance_payout]
    · simp
    · simp [Entity.tell_money]

/-- C5 witness: at `sampleIAState` (request 50,000, level 200,000, money
1,000 < damage 130,000, free staff) the theorem's full-payment branch
applies. -/
theorem C5_assistance_settlement_witness :
    sampleIAState.ent.money_to_rebuild < sampleIAState.ent.property.damage_value ∧
    sampleIAState.staff.canGrant = true ∧
    iaTier sampleIAState.ent.property ≤ sampleIAState.budget.level ∧
    ((IndividualAssistance.process 10 none sampleIAState).1 = IAOutcome.paidFull ∧
     (IndividualAssistance.process 10 none sampleIAState).2.ent.assistance_payout =
       iaTier sampleIAState.ent.property ∧
     (IndividualAssistance.process 10 none sampleIAState).2.budget.level =
       sampleIAState.budget.level - iaTier sampleIAState.ent.property ∧
     (IndividualAssistance.process 10 none sampleIAState).2.ent.money_to_rebuild =
       sampleIAState.ent.money_to_rebuild + iaTier sampleIAState.ent.property ∧
     installmentMarked sampleIAState.ent.property
       (IndividualAssistance.process 10 none sampleIAState).2.ent.property
       (sampleIAState.now + 10)) :=
  ⟨by decide, by decide, by decide,
    (C5_assistance_settlement 10 sampleIAState (by decide) (by decide)).1 (by decide)⟩

/-- C6. For every `HomeLoan` run that reaches settlement (entity short of
money for the current stage, free loan processor, no interruption), the
stored `loan_amount` equals
`min(max_loan, stage_cost − saved − claim_payout − assistance_payout)` with
`saved = savings` exactly when the plinth is not yet built (0 otherwise);
the amount is added to both `money_to_rebuild` and `debt` iff it is strictly
positive, and a non-positive computed amount is stored unclamped. -/
theorem C6_loan_settlement (max_loan dur : ℚ) (s : HLState)
    (hmoney : s.ent.money_to_rebuild < hlRebuildCost s.ent.property)
    (hstaff : s.staff.canGrant = true) :
    (HomeLoan.process max_loan dur none s).1 = HLOutcome.settled ∧
    (HomeLoan.process max_loan dur none s).2.ent.loan_amount =
      min max_loan (hlRebuildCost s.ent.property -
        (if s.ent.property.new_plinth = false then s.ent.savings else 0) -
        s.ent.claim_payout - s.ent.assistance_payout) ∧
    (0 < min max_loan (hlRebuildCost s.ent.property -
        (if s.ent.property.new_plinth = false then s.ent.savings else 0) -
        s.ent.claim_payout - s.ent.assistance_payout) →
      (HomeLoan.process max_loan dur none s).2.ent.money_to_rebuild =
        s.ent.money_to_rebuild + min max_loan (hlRebuildCost s.ent.property -
          (if s.ent.property.new_plinth = false then s.ent.savings else 0) -
          s.ent.claim_payout - s.ent.assistance_payout) ∧
      (HomeLoan.process max_loan dur none s).2.ent.debt =
        s.ent.debt + min max_loan (hlRebuildCost s.ent.property -
          (if s.ent.property.new_plinth = false then s.ent.savings else 0) -
          s.ent.claim_payout - s.ent.assistance_payout)) ∧
    (¬ 0 < min max_loan (hlRebuildCost s.ent.property -
        (if s.ent.property.new_plinth = false then s.ent.savings else 0) -
        s.ent.claim_payout - s.ent.assistance_payout) →
      (HomeLoan.process max_loan dur none s).2.ent.money_to_rebuild =
        s.ent.money_to_rebuild ∧
      (HomeLoan.process max_loan dur none s).2.ent.debt = s.ent.debt) := by
  unfold HomeLoan.process
  simp only [intrCause, if_neg (not_le.mpr hmoney), hstaff, Entity.tell_property,
    Entity.tell_savings, Entity.tell_claim_payout, Entity.tell_assistance_payout,
    Bool.true_eq_false, if_false, if_neg]
  by_cases hp : s.ent.property.new_plinth = false
  · rw [if_pos hp]
    refine ⟨?_, ?_, ?_, ?_⟩
    · split <;> rfl
    · split <;> simp [Entity.tell_loan_amount]
    · intro h
      split
      · constructor <;> simp [Entity.tell_money, Entity.tell_debt]
      · rename_i hc
        exact absurd h hc
    · intro h
      split
      · rename_i hc
        exact absurd hc h
      · constructor <;> simp [Entity.tell_money, Entity.tell_debt]
  · rw [if_neg hp]
    refine ⟨?_, ?_, ?_, ?_⟩
    · split <;> rfl
    · split <;> simp [Entity.tell_loan_amount]
    · intro h
      split
      · constructor <;> simp [Entity.tell_money, Entity.tell_debt]
      · rename_i hc
        exact absurd h hc
    · intro h
      split
      · rename_i hc
        exact absurd hc h
      · constructor <;> simp [Entity.tell_money, Entity.tell_debt]

/-- C6 witness: at `sampleHLState` the computed amount is
`min(1,000,000, 40,000 − 40,000 − 20,000 − 0) = −20,000`: it is stored
unclamped in `loan_amount` while money and debt stay unchanged. -/
theorem C6_loan_settlement_witness :
    sampleHLState.ent.money_to_rebuild < hlRebuildCost sampleHLState.ent.property ∧
    ((HomeLoan.process 1000000 4 none sampleHLState).1 = HLOutcome.settled ∧
     (HomeLoan.process 1000000 4 none sampleHLState).2.ent.loan_amount =
       min 1000000 (hlRebuildCost sampleHLState.ent.property -
         (if sampleHLState.ent.property.new_plinth = false then sampleHLState.ent.savings else 0) -
         sampleHLState.ent.claim_payout - sampleHLState.ent.assistance_payout) ∧
     (HomeLoan.process 1000000 4 none sampleHLState).2.ent.money_to_rebuild =
       sampleHLState.ent.money_to_rebuild ∧
     (HomeLoan.process 1000000 4 none sampleHLState).2.ent.debt = sampleHLState.ent.debt) :=
  ⟨by decide, by
    have h := C6_loan_settlement 1000000 4 sampleHLState (by decide) (by decide)
    have hneg : ¬ 0 < min (1000000 : ℚ) (hlRebuildCost sampleHLState.ent.property -
        (if sampleHLState.ent.property.new_plinth = false then sampleHLState.ent.savings else 0) -
        sampleHLState.ent.claim_payout - sampleHLState.ent.assistance_payout) := by
      norm_num [sampleHLState, sampleEntity, sampleBuilding, Building.construct, hlRebuildCost]
    exact ⟨h.1, h.2.1, (h.2.2.2 hneg).1, (h.2.2.2 hneg).2⟩⟩

/-- C7. For every `OwnersInsurance` run (no interruption) starting with a
zero claim payout: with coverage ratio ≤ 0 the payout stays 0 and the
adjuster pool is untouched; otherwise, with
`deductible = structure value × coverage ratio × deductible rate`, if the
damage value is below the deductible the claim is denied immediately with
payout 0, no resource used and the receipt time recorded; otherwise (with a
free adjuster) the payout equals damage − deductible, is added to
`money_to_rebuild`, and the receipt time is recorded. -/
theorem C7_insurance_claim (dRate dur : ℚ) (s : OIState) (hpay : s.ent.claim_payout = 0) :
    (s.ent.insurance ≤ 0 →
      (OwnersInsurance.process dRate dur none s).1 = OIOutcome.noInsurance ∧
      (OwnersInsurance.process dRate dur none s).2.ent.claim_payout = 0 ∧
      (OwnersInsurance.process dRate dur none s).2.staff = s.staff ∧
      (OwnersInsurance.process dRate dur none s).2.ent.money_to_rebuild =
        s.ent.money_to_rebuild) ∧
    (¬ s.ent.insurance ≤ 0 →
      s.ent.property.damage_value < s.ent.property.value * s.ent.insurance * dRate →
      (OwnersInsurance.process dRate dur none s).1 = OIOutcome.denied ∧
      (OwnersInsurance.process dRate dur none s).2.ent.claim_payout = 0 ∧
      (OwnersInsurance.process dRate dur none s).2.staff = s.staff ∧
      (OwnersInsurance.process dRate dur none s).2.ent.money_to_rebuild =
        s.ent.money_to_rebuild ∧
      (OwnersInsurance.process dRate dur none s).2.ent.claim_get = some s.now) ∧
    (¬ s.ent.insurance ≤ 0 →
      ¬ s.ent.property.damage_value < s.ent.property.value * s.ent.insurance * dRate →
      s.staff.canGrant = true →
      (OwnersInsurance.process dRate dur none s).1 = OIOutcome.paid ∧
      (OwnersInsurance.process dRate dur none s).2.ent.claim_payout =
        s.ent.property.damage_value - s.ent.property.value * s.ent.insurance * dRate ∧
      (OwnersInsurance.process dRate dur none s).2.ent.money_to_rebuild =
        s.ent.money_to_rebuild +
          (s.ent.property.damage_value - s.ent.property.value * s.ent.insurance * dRate) ∧
      (OwnersInsurance.process dRate dur none s).2.ent.claim_get = some (s.now + dur) ∧
      (OwnersInsurance.process dRate dur none s).2.staff.holders = s.staff.holders) := by
  unfold OwnersInsurance.process
  refine ⟨?_, ?_, ?_⟩
  · intro h
    rw [if_pos h]
    exact ⟨rfl, by simp [Entity.tell_claim_payout, hpay], rfl,
      by simp [Entity.tell_money]⟩
  · intro h hd
    rw [if_neg h]
    simp only [Entity.tell_property, Entity.tell_insurance]
    rw [if_pos hd]
    exact ⟨rfl, by simp [Entity.tell_claim_payout, hpay], rfl,
      by simp [Entity.tell_money], by simp [Entity.tell_claim_get]⟩
  · intro h hd hg
    rw [if_neg h]
    simp only [Entity.tell_property, Entity.tell_insurance]
    rw [if_neg hd]
    simp [intrCause, hg, Entity.tell_claim_payout, Entity.tell_property,
      Entity.tell_insurance, Entity.tell_money, Entity.tell_claim_get,
      Pool.acquire, Pool.release]

/-- C7 witness: with zero coverage the pool is untouched and the payout is
0; at `sampleOIState` (coverage 1/2, deductible rate 1/10, damage 130,000 ≥
deductible 6,500) the payout is exactly damage − deductible. -/
theorem C7_insurance_claim_witness :
    ((OwnersInsurance.process (1/10) 7 none
        { staff := { cap := Cap.fin 4, holders := 0 }, ent := sampleEntity, now := 6 }).1 =
      OIOutcome.noInsurance ∧
     (OwnersInsurance.process (1/10) 7 none
        { staff := { cap := Cap.fin 4, holders := 0 }, ent := sampleEntity, now := 6 }).2.staff =
      { cap := Cap.fin 4, holders := 0 }) ∧
    ((OwnersInsurance.process (1/10) 7 none sampleOIState).1 = OIOutcome.paid ∧
     (OwnersInsurance.process (1/10) 7 none sampleOIState).2.ent.claim_payout =
       sampleOIState.ent.property.damage_value -
         sampleOIState.ent.property.value * sampleOIState.ent.insurance * (1/10)) :=
  ⟨by
    have h := (C7_insurance_claim (1/10) 7
      { staff := { cap := Cap.fin 4, holders := 0 }, ent := sampleEntity, now := 6 }
      (by decide)).1 (by decide)
    exact ⟨h.1, h.2.2.1⟩,
   by
    have h := ((C7_insurance_claim (1/10) 7 sampleOIState (by decide)).2.2
      (by norm_num [sampleOIState, sampleEntity])
      (by norm_num [sampleOIState, sampleEntity, sampleBuilding, Building.construct])
      (by decide))
    exact ⟨h.1, h.2.1⟩⟩

/-- C2 (amended). A Repair process never suspends on a withdrawal from any
of the eight checked material containers: a shortage of a checked material
is a synchronous, effect-free, one-shot abort (no slot touched, no time
passed, no level, money or structure mutated).  (The unchecked
unskilled-labour container is the exception established by the
counterexample.) -/
theorem C2_no_wait_on_checked_materials (stage : Stage) (need : MatNeeded)
    (intr : Option (ℕ × ℚ)) (s : RepairState) :
    (RepairProgram.process stage need intr s).outcome.blocksCheckedContainer = false ∧
    shortAbortImmediate s (RepairProgram.process stage need intr s) = true := by
  unfold RepairProgram.process
  cases hsm : repairShortMaterial need s with
  | some m =>
    simp only [hsm]
    constructor
    · rfl
    · simp [shortAbortImmediate, Entity.tell_money, Entity.tell_property]
  | none =>
    simp only [hsm]
    obtain ⟨h1, h2, h3, h4, h5, h6, h7, h8⟩ := shortMaterial_none need s hsm
    have key : ∀ (r : RepairResult), r.outcome.pastChecks = true →
        r.outcome.blocksCheckedContainer = false ∧ shortAbortImmediate s r = true :=
      fun r hr => ⟨pastChecks_blocksChecked _ hr, pastChecks_shortAbort s r hr⟩
    split
    · exact ⟨rfl, rfl⟩
    · apply key
      apply repairReqStep_elim (fun r => r.outcome.pastChecks = true)
      · intro cause; rfl
      · rfl
      · intro p1
        apply repairReqStep_elim (fun r => r.outcome.pastChecks = true)
        · intro cause; rfl
        · rfl
        · intro p2
          apply repairReqStep_elim (fun r => r.outcome.pastChecks = true)
          · intro cause; rfl
          · rfl
          · intro p3
            apply repairReqStep_elim (fun r => r.outcome.pastChecks = true)
            · intro cause; rfl
            · rfl
            · intro p4
              apply repairGetStep_elim (fun r => r.outcome.pastChecks = true)
              · intro cause; rfl
              · intro hn hcg
                simp [Container.canGet, h1] at hcg
              · intro cStone
                apply repairGetStep_elim (fun r => r.outcome.pastChecks = true)
                · intro cause; rfl
                · intro hn hcg
                  simp [Container.canGet, h2] at hcg
                · intro cBrick
                  apply repairGetStep_elim (fun r => r.outcome.pastChecks = true)
                  · intro cause; rfl
                  · intro hn hcg
                    simp [Container.canGet, h3] at hcg
                  · intro cTimber
                    apply repairGetStep_elim (fun r => r.outcome.pastChecks = true)
                    · intro cause; rfl
                    · intro hn hcg
                      simp [Container.canGet, h4] at hcg
                    · intro cRebar
                      apply repairGetStep_elim (fun r => r.outcome.pastChecks = true)
                      · intro cause; rfl
                      · intro hn hcg
                        simp [Container.canGet, h5] at hcg
                      · intro cCement
                        apply repairGetStep_elim (fun r => r.outcome.pastChecks = true)
                        · intro cause; rfl
                        · intro hn hcg
                          simp [Container.canGet, h6] at hcg
                        · intro cCgi
                          apply repairGetStep_elim (fun r => r.outcome.pastChecks = true)
                          · intro cause; rfl
                          · intro hn hcg
                            simp [Container.canGet, h7] at hcg
                          · intro cSand
                            apply repairGetStep_elim (fun r => r.outcome.pastChecks = true)
                            · intro cause; rfl
                            · intro hn hcg
                              simp [Container.canGet, h8] at hcg
                            · intro cAggregate
                              apply repairGetStep_elim (fun r => r.outcome.pastChecks = true)
                              · intro cause; rfl
                              · intro hn hcg
                                rfl
                              · intro cUnskilled
                                rcases hf : intrCause intr 13 with _ | cause <;>
                                  simp only [hf] <;> rfl

/-- C4 (amended). For every Repair attempt whose material and money
preconditions hold — and which additionally finds 4 grantable skilled-labour
slots and enough unskilled labour in that (unchecked) container — the
process acquires exactly 4 skilled slots sequentially, withdraws each
required quantity from its container only when the requirement is positive,
waits `skilled_effort / 4`, releases the 4 slots (holder count restored),
debits exactly the stage cost from `money_to_rebuild`, and sets the stage's
complete flag with its completion timestamp and elapsed duration. -/
theorem C4_repair_success_effects (stage : Stage) (need : MatNeeded) (s : RepairState)
    (h1 : need.stone ≤ s.stone.level) (h2 : need.brick ≤ s.brick.level)
    (h3 : need.timber ≤ s.timber.level) (h4 : need.rebar ≤ s.rebar.level)
    (h5 : need.cement ≤ s.cement.level) (h6 : need.cgi ≤ s.cgi.level)
    (h7 : need.sand ≤ s.sand.level) (h8 : need.aggregate ≤ s.aggregate.level)
    (hm : repairCost stage s.ent.property ≤ s.ent.money_to_rebuild)
    (hg : s.skilled.canGrantRun 4 = true)
    (hu : need.unskilled ≤ s.unskilled.level) :
    (RepairProgram.process stage need none s).outcome = RepairOutcome.completed ∧
    (RepairProgram.process stage need none s).acquired = 4 ∧
    (RepairProgram.process stage need none s).released = 4 ∧
    (RepairProgram.process stage need none s).state.skilled.holders = s.skilled.holders ∧
    (RepairProgram.process stage need none s).state.now = s.now + need.skilled / 4 ∧
    (RepairProgram.process stage need none s).state.stone =
      (if need.stone > 0 then s.stone.get need.stone else s.stone) ∧
    (RepairProgram.process stage need none s).state.brick =
      (if need.brick > 0 then s.brick.get need.brick else s.brick) ∧
    (RepairProgram.process stage need none s).state.timber =
      (if need.timber > 0 then s.timber.get need.timber else s.timber) ∧
    (RepairProgram.process stage need none s).state.rebar =
      (if need.rebar > 0 then s.rebar.get need.rebar else s.rebar) ∧
    (RepairProgram.process stage need none s).state.cement =
      (if need.cement > 0 then s.cement.get need.cement else s.cement) ∧
    (RepairProgram.process stage need none s).state.cgi =
      (if need.cgi > 0 then s.cgi.get need.cgi else s.cgi) ∧
    (RepairProgram.process stage need none s).state.sand =
      (if need.sand > 0 then s.sand.get need.sand else s.sand) ∧
    (RepairProgram.process stage need none s).state.aggregate =
      (if need.aggregate > 0 then s.aggregate.get need.aggregate else s.aggregate) ∧
    (RepairProgram.process stage need none s).state.unskilled =
      (if need.unskilled > 0 then s.unskilled.get need.unskilled else s.unskilled) ∧
    (RepairProgram.process stage need none s).state.ent.money_to_rebuild =
      s.ent.money_to_rebuild - repairCost stage s.ent.property ∧
    stageDone stage (RepairProgram.process stage need none s).state.ent.property
      (s.now + need.skilled / 4) (need.skilled / 4) := by
  have hsm : repairShortMaterial need s = none := by
    unfold repairShortMaterial
    rw [if_neg (not_lt.mpr h1), if_neg (not_lt.mpr h2), if_neg (not_lt.mpr h3),
      if_neg (not_lt.mpr h4), if_neg (not_lt.mpr h5), if_neg (not_lt.mpr h6),
      if_neg (not_lt.mpr h7), if_neg (not_lt.mpr h8)]
  obtain ⟨g1, g2, g3, g4⟩ := canGrantRun_four _ hg
  unfold RepairProgram.process
  simp only [hsm]
  rw [if_neg (not_lt.mpr hm)]
  rw [repairReqStep_none _ _ _ _ (by exact g1)]
  rw [repairReqStep_none _ _ _ _ (by exact g2)]
  rw [repairReqStep_none _ _ _ _ (by exact g3)]
  rw [repairReqStep_none _ _ _ _ (by exact g4)]
  rw [repairGetStep_none _ _ _ _ _ _ _
    (fun _ => by simp [Container.canGet]; exact h1)]
  rw [repairGetStep_none _ _ _ _ _ _ _
    (fun _ => by simp [Container.canGet]; exact h2)]
  rw [repairGetStep_none _ _ _ _ _ _ _
    (fun _ => by simp [Container.canGet]; exact h3)]
  rw [repairGetStep_none _ _ _ _ _ _ _
    (fun _ => by simp [Container.canGet]; exact h4)]
  rw [repairGetStep_none _ _ _ _ _ _ _
    (fun _ => by simp [Container.canGet]; exact h5)]
  rw [repairGetStep_none _ _ _ _ _ _ _
    (fun _ => by simp [Container.canGet]; exact h6)]
  rw [repairGetStep_none _ _ _ _ _ _ _
    (fun _ => by simp [Container.canGet]; exact h7)]
  rw [repairGetStep_none _ _ _ _ _ _ _
    (fun _ => by simp [Container.canGet]; exact h8)]
  rw [repairGetStep_none _ _ _ _ _ _ _
    (fun _ => by simp [Container.canGet]; exact hu)]
  simp only [intrCause]
  cases stage <;>
    simp [Pool.acquire, Pool.release, Entity.tell_property, Entity.tell_money,
      repairCommit, repairCost, stageDone, Container.get]

/-- C4 witness: at `sampleRepairState 50` with `sampleNeed` every hypothesis
holds and the plinth repair completes: crew of 4 acquired and released,
clock advanced by 20/4 = 5, money debited by the 40,000 plinth cost, flag
set with its timestamps. -/
theorem C4_repair_success_effects_witness :
    sampleNeed.stone ≤ (sampleRepairState 50).stone.level ∧
    repairCost Stage.plinth (sampleRepairState 50).ent.property ≤
      (sampleRepairState 50).ent.money_to_rebuild ∧
    (sampleRepairState 50).skilled.canGrantRun 4 = true ∧
    sampleNeed.unskilled ≤ (sampleRepairState 50).unskilled.level ∧
    ((RepairProgram.process Stage.plinth sampleNeed none (sampleRepairState 50)).outcome =
      RepairOutcome.completed ∧
     (RepairProgram.process Stage.plinth sampleNeed none (sampleRepairState 50)).acquired = 4 ∧
     (RepairProgram.process Stage.plinth sampleNeed none (sampleRepairState 50)).released = 4 ∧
     (RepairProgram.process Stage.plinth sampleNeed none (sampleRepairState 50)).state.skilled.holders =
       (sampleRepairState 50).skilled.holders ∧
     (RepairProgram.process Stage.plinth sampleNeed none (sampleRepairState 50)).state.now =
       (sampleRepairState 50).now + sampleNeed.skilled / 4 ∧
     (RepairProgram.process Stage.plinth sampleNeed none (sampleRepairState 50)).state.ent.money_to_rebuild =
       (sampleRepairState 50).ent.money_to_rebuild -
         repairCost Stage.plinth (sampleRepairState 50).ent.property ∧
     stageDone Stage.plinth
       (RepairProgram.process Stage.plinth sampleNeed none (sampleRepairState 50)).state.ent.property
       ((sampleRepairState 50).now + sampleNeed.skilled / 4) (sampleNeed.skilled / 4)) := by
  refine ⟨by decide, by decide, by decide, by decide, ?_⟩
  have h := C4_repair_success_effects Stage.plinth sampleNeed (sampleRepairState 50)
    (by decide) (by decide) (by decide) (by decide) (by decide) (by decide)
    (by decide) (by decide) (by decide) (by decide) (by decide)
  exact ⟨h.1, h.2.1, h.2.2.1, h.2.2.2.1, h.2.2.2.2.1,
    h.2.2.2.2.2.2.2.2.2.2.2.2.2.2.1, h.2.2.2.2.2.2.2.2.2.2.2.2.2.2.2⟩

/-- C8. The three stage-complete flags are monotonic: `Building.__init__`
starts them false, and every embedded program operation (the three financial
programs under any interruption schedule, Repair under any interruption
schedule, Inspection, EngineeringAssessment, Permit) can only leave each
flag equal or raise it from false to true — never reset it. -/
theorem C8_stage_flags_monotone :
    (∀ pv wv rv dv v : ℚ, (Building.construct pv wv rv dv v).new_plinth = false ∧
      (Building.construct pv wv rv dv v).new_walls = false ∧
      (Building.construct pv wv rv dv v).new_roof = false) ∧
    (∀ (dur : ℚ) (intr : Option (ℕ × ℚ)) (s : IAState),
      flagsLe s.ent.property (IndividualAssistance.process dur intr s).2.ent.property) ∧
    (∀ (dRate dur : ℚ) (intr : Option (ℕ × ℚ)) (s : OIState),
      flagsLe s.ent.property (OwnersInsurance.process dRate dur intr s).2.ent.property) ∧
    (∀ (max_loan dur : ℚ) (intr : Option (ℕ × ℚ)) (s : HLState),
      flagsLe s.ent.property (HomeLoan.process max_loan dur intr s).2.ent.property) ∧
    (∀ (stage : Stage) (need : MatNeeded) (intr : Option (ℕ × ℚ)) (s : RepairState),
      flagsLe s.ent.property (RepairProgram.process stage need intr s).state.ent.property) ∧
    (∀ (dur : ℚ) (s : InspState),
      flagsLe s.struct (InspectionProgram.process dur s).2.struct) ∧
    (∀ (dur : ℚ) (s : TechState),
      flagsLe s.struct (EngineeringAssessment.process dur s).2.struct) ∧
    (∀ (dur : ℚ) (s : TechState),
      flagsLe s.struct (PermitProgram.process dur s).2.struct) :=
  ⟨fun _ _ _ _ _ => ⟨rfl, rfl, rfl⟩, iaMono, oiMono, hlMono, repairMono,
    inspMono, eaMono, permitMono⟩

end DESasterNep
